import Mathlib

/-!
A shallow embedding of the creativize-ai content generator: the
server-side generate-content proxy (prompt construction, failure
handling and the split/pad pipeline that turns the upstream text into
exactly four variations) and the client-side ContentGenerator component
(card search filtering, generation-form validation, and the database
inserts of the generation workflow).
-/

namespace Creativize

/-- Model of JS String.trim on the character list of a string:
whitespace is stripped from both ends (ASCII whitespace). -/
def trimChars (l : List Char) : List Char :=
  ((l.dropWhile Char.isWhitespace).reverse.dropWhile Char.isWhitespace).reverse

/-- Model of JS String.split on the regex digits-then-dot, scanning left
to right. `acc` holds the current segment read so far and `pending` the
run of digits just read, whose fate (start of a delimiter, or ordinary
text) is not yet known: a dot right after a non-empty digit run closes
the current segment, since the regex matches the maximal digit run
followed by the dot. -/
def splitNumDotAux : List Char → List Char → List Char → List (List Char)
  | [], acc, pending => [acc ++ pending]
  | c :: cs, acc, pending =>
    if c.isDigit then
      splitNumDotAux cs acc (pending ++ [c])
    else if c = '.' then
      if pending.isEmpty then splitNumDotAux cs (acc ++ [c]) []
      else acc :: splitNumDotAux cs [] []
    else
      splitNumDotAux cs (acc ++ pending ++ [c]) []

/-- generatedText.split with the digit-dot regex (index.ts line 58). -/
def jsSplitNumDot (l : List Char) : List (List Char) :=
  splitNumDotAux l [] []

/-- The templated fallback variation pushed while fewer than four
variations exist (index.ts line 65): card name, bank name and the
lowercased audience. -/
def fallbackL (cardName bankName audience : List Char) : List Char :=
  cardName ++ (" from ").data ++ bankName ++ (" - Great choice for ").data
    ++ audience.map Char.toLower ++ ("!").data

/-- The proxy's split/pad pipeline (index.ts lines 56-70): split the
upstream text on digit-dot boundaries, keep the segments that are
non-empty after trimming, trim them, truncate to four, then pad with
the templated fallback until four entries exist and answer the first
four. -/
def variationsL (generatedText cardName bankName audience : List Char) :
    List (List Char) :=
  let segs := (((jsSplitNumDot generatedText).filter
      (fun t => !(trimChars t).isEmpty)).map trimChars).take 4
  (segs ++ List.replicate (4 - segs.length) (fallbackL cardName bankName audience)).take 4

/-- The split/pad pipeline at the level of strings. -/
def variations (generatedText cardName bankName audience : String) : List String :=
  (variationsL generatedText.data cardName.data bankName.data audience.data).map String.mk

/-- Model of JS String.toLowerCase (ASCII case folding). -/
def toLowerString (s : String) : String :=
  String.mk (s.data.map Char.toLower)

/-- The prompt string the proxy builds from the request fields
(index.ts lines 25-33). -/
def buildPrompt (cardName bankName platform audience language tone customPrompt : String) :
    String :=
  "Create 4 variations of content to promote the \"" ++ cardName
    ++ "\" credit card from " ++ bankName ++ ".\n"
    ++ "Platform: " ++ platform ++ "\n"
    ++ "Audience: " ++ audience ++ "\n"
    ++ "Language: " ++ language ++ "\n"
    ++ "Tone: " ++ tone ++ "\n\n"
    ++ (if customPrompt = "" then "" else "Additional instruction: " ++ customPrompt)
    ++ "\n\n"
    ++ "The content should be platform-appropriate, concise, and persuasive. Return exactly 4 different variations, each on a new line, numbered 1-4."

/-- The upstream generative-API reply as the proxy observes it: the ok
flag and status of the fetch response, and the text extracted from the
reply body. -/
structure UpstreamResponse where
  ok : Bool
  status : Nat
  text : String
deriving DecidableEq

/-- What the proxy sends back: a variations body, or an error-shaped
body with a failure status code. -/
inductive ProxyResponse where
  | success (variations : List String)
  | failure (status : Nat) (error : String)
deriving DecidableEq

/-- The proxy handler (index.ts lines 15-80) as a function of the held
credential and of the upstream fetch result for the built prompt. A
missing key throws before any fetch, and a non-ok upstream response
throws after it; both land in the catch, which answers a 500 with an
error-shaped body. Otherwise the split/pad pipeline is applied to the
upstream text. -/
def handleGenerate (apiKey : Option String) (fetchGemini : String → UpstreamResponse)
    (cardName bankName platform audience language tone customPrompt : String) :
    ProxyResponse :=
  match apiKey with
  | none => .failure 500 "Gemini API key not configured"
  | some _ =>
    let resp := fetchGemini
      (buildPrompt cardName bankName platform audience language tone customPrompt)
    if resp.ok then
      .success (variations resp.text cardName bankName audience)
    else
      .failure 500 ("Gemini API error: " ++ toString resp.status)

/-- One card object of the external catalog response, with the fields
the component consumes; card_name and issuing_bank are read through
optional chaining, so they may be absent. -/
structure CatalogCard where
  id : String
  card_name : Option String
  issuing_bank : Option String
  slug : Option String
  description : Option String
  rewards_summary : Option String
deriving DecidableEq

/-- A search result as the component stores it: the catalog fields
renamed (issuing_bank becomes bank_name). -/
structure SearchResultCard where
  id : String
  card_name : Option String
  bank_name : Option String
  slug : Option String
  description : Option String
  rewards_summary : Option String
deriving DecidableEq

/-- Model of JS startsWith on character lists: does the first list start
with the second. -/
def startsWithL : List Char → List Char → Bool
  | _, [] => true
  | [], _ :: _ => false
  | c :: cs, d :: ds => c = d && startsWithL cs ds

/-- Model of JS String.includes on character lists: does the needle
occur contiguously in the haystack. -/
def jsIncludesL (hay needle : List Char) : Bool :=
  match hay with
  | [] => needle.isEmpty
  | _ :: rest => startsWithL hay needle || jsIncludesL rest needle

/-- Optional-chained lowercased containment test,
field?.toLowerCase().includes(query.toLowerCase()): an absent field is
falsy. -/
def optIncludesLower (field : Option String) (query : String) : Bool :=
  match field with
  | some s => jsIncludesL (s.data.map Char.toLower) (query.data.map Char.toLower)
  | none => false

/-- The filter predicate of searchCards (ContentGenerator.tsx lines
65-68): the query matches the card name or the issuing bank,
case-insensitively. -/
def matchesQuery (query : String) (card : CatalogCard) : Bool :=
  optIncludesLower card.card_name query || optIncludesLower card.issuing_bank query

/-- The mapping of a filtered catalog card into the stored search result
(ContentGenerator.tsx lines 70-77). -/
def toSearchResult (card : CatalogCard) : SearchResultCard :=
  { id := card.id,
    card_name := card.card_name,
    bank_name := card.issuing_bank,
    slug := card.slug,
    description := card.description,
    rewards_summary := card.rewards_summary }

/-- data.data?.filter(...).slice(0, 5) with the undefined-data fallback
to the empty list (ContentGenerator.tsx lines 65-68). -/
def filteredCards (query : String) (data : Option (List CatalogCard)) : List CatalogCard :=
  match data with
  | some cards => (cards.filter (matchesQuery query)).take 5
  | none => []

/-- The searchCards operation (ContentGenerator.tsx lines 40-87) as a
function of the query and of the catalog response body: the answer is
the stored result list paired with whether a network call to the
catalog endpoint was issued. A query that is empty after trimming
clears the results and skips the call. -/
def searchCards (query : String) (data : Option (List CatalogCard)) :
    List SearchResultCard × Bool :=
  if (trimChars query.data).isEmpty then ([], false)
  else ((filteredCards query data).map toSearchResult, true)

/-- The CreditCard interface of the component (ContentGenerator.tsx
lines 12-19): a selected card. -/
structure CreditCardI where
  id : String
  card_name : String
  bank_name : String
  slug : String
  description : Option String
  rewards_summary : Option String
deriving DecidableEq

/-- The component state the generation operation reads: the selected
card and the five form fields, each an empty string while unset. -/
structure GenState where
  selectedCard : Option CreditCardI
  platform : String
  audience : String
  language : String
  tone : String
  customPrompt : String
deriving DecidableEq

/-- One row of the user_inputs table as the component inserts it. -/
structure UserInputRow where
  id : Nat
  card_id : String
  platform : String
  audience : String
  language : String
  tone : String
  custom_prompt : Option String
deriving DecidableEq

/-- One row of the ai_outputs table as the component inserts it. -/
structure AIOutputRow where
  id : Nat
  input_id : Nat
  variation_number : Nat
  content_variation : String
deriving DecidableEq

/-- The relational backend as the component touches it: the two tables
written by the generation operation, and the next generated row
identifier. -/
structure DB where
  user_inputs : List UserInputRow
  ai_outputs : List AIOutputRow
  nextId : Nat
deriving DecidableEq

/-- Insert into user_inputs (ContentGenerator.tsx lines 102-113): the
row receives a fresh generated identifier and is appended; the inserted
row is returned. -/
def insertUserInput (db : DB) (card_id platform audience language tone : String)
    (custom_prompt : Option String) : DB × UserInputRow :=
  let row : UserInputRow :=
    ⟨db.nextId, card_id, platform, audience, language, tone, custom_prompt⟩
  (⟨db.user_inputs ++ [row], db.ai_outputs, db.nextId + 1⟩, row)

/-- Insert into ai_outputs (ContentGenerator.tsx lines 138-146): the
row receives a fresh generated identifier and is appended; the inserted
row is returned. -/
def insertAIOutput (db : DB) (input_id variation_number : Nat)
    (content_variation : String) : DB × AIOutputRow :=
  let row : AIOutputRow := ⟨db.nextId, input_id, variation_number, content_variation⟩
  (⟨db.user_inputs, db.ai_outputs ++ [row], db.nextId + 1⟩, row)

/-- The batch of ai_outputs inserts over the content list
(ContentGenerator.tsx lines 137-152), ordinal starting at 1
(variation_number: index + 1). -/
def insertOutputs (db : DB) (inputId : Nat) (contents : List String) (ordinal : Nat) :
    DB × List AIOutputRow :=
  match contents with
  | [] => (db, [])
  | c :: cs =>
    let p := insertAIOutput db inputId ordinal c
    let rest := insertOutputs p.1 inputId cs (ordinal + 1)
    (rest.1, p.2 :: rest.2)

/-- The four locally composed variation strings (ContentGenerator.tsx
lines 129-134): a template over the selected card's name and bank name,
the lowercased audience, and two tone conditionals. -/
def mockContent (selectedCard : CreditCardI) (audience tone : String) : List String :=
  [ "🎯 Exclusive " ++ selectedCard.card_name ++ " offer! Perfect for "
      ++ toLowerString audience ++ ". " ++ (if tone = "exciting" then "🚀" else ""),
    "Looking for a great credit card? The " ++ selectedCard.card_name ++ " from "
      ++ selectedCard.bank_name ++ " is exactly what you need!",
    (if tone = "friendly" then "Hey there!" else "Attention:")
      ++ " Just discovered the amazing benefits of " ++ selectedCard.card_name
      ++ ". Worth checking out!",
    selectedCard.card_name
      ++ " review: This card offers incredible value. Here's why it's perfect for your needs..." ]

/-- The outcome the generation operation reports: the validation toast,
or the displayed batch of stored rows. -/
inductive GenOutcome where
  | missingInfo
  | generated (rows : List AIOutputRow)
deriving DecidableEq

/-- The generateContent operation (ContentGenerator.tsx lines 89-164):
validation aborts with the missing-information toast and touches
nothing; otherwise one user_inputs row is inserted, the four variation
strings are composed locally from the mockContent template, and the
four ai_outputs rows are inserted with ordinals starting at 1 and the
foreign key of the fresh input row. -/
def generateContentStep (s : GenState) (db : DB) : DB × GenOutcome :=
  match s.selectedCard with
  | none => (db, .missingInfo)
  | some card =>
    if s.platform = "" ∨ s.audience = "" ∨ s.language = "" ∨ s.tone = "" then
      (db, .missingInfo)
    else
      let p1 := insertUserInput db card.id s.platform s.audience s.language s.tone
        (if s.customPrompt = "" then none else some s.customPrompt)
      let p2 := insertOutputs p1.1 p1.2.id (mockContent card s.audience s.tone) 1
      (p2.1, .generated p2.2)

/-- The texts of the variations a run displays: the content_variation
fields of the stored batch, or nothing when validation aborted. -/
def generatedTexts : DB × GenOutcome → List String
  | (_, .missingInfo) => []
  | (_, .generated rows) => rows.map AIOutputRow.content_variation

/-- A concrete selected card used as a test input. -/
def card0 : CreditCardI :=
  ⟨"card-1", "Alpha Card", "Alpha Bank", "alpha-card", none, none⟩

/-- A concrete fully filled generation state used as a test input. -/
def s0 : GenState :=
  ⟨some card0, "instagram", "friends", "english", "friendly", ""⟩

/-- A concrete empty backend used as a test input. -/
def db0 : DB := ⟨[], [], 1⟩

/-- The templated fallback always holds at least its literal exclamation
mark, so it is never the empty string. -/
theorem fallbackL_ne_nil (c b a : List Char) : fallbackL c b a ≠ [] := by
  intro h
  rcases List.append_eq_nil.1 h with ⟨-, hbang⟩
  exact absurd hbang (by decide)

/-- The split/pad pipeline yields a list of length exactly four. -/
theorem variationsL_length (g c b a : List Char) : (variationsL g c b a).length = 4 := by
  simp only [variationsL, List.length_take, List.length_append, List.length_replicate,
    List.length_map]
  omega

/-- Every entry of the split/pad pipeline is non-empty: kept segments
are non-empty after trimming, and the pad is the non-empty fallback. -/
theorem variationsL_mem_ne_nil (g c b a : List Char) (t : List Char)
    (ht : t ∈ variationsL g c b a) : t ≠ [] := by
  simp only [variationsL] at ht
  have ht' := List.mem_of_mem_take ht
  rcases List.mem_append.1 ht' with h | h
  · have h' := List.mem_of_mem_take h
    rcases List.mem_map.1 h' with ⟨u, hu, rfl⟩
    have := (List.mem_filter.1 hu).2
    simpa using this
  · rw [List.eq_of_mem_replicate h]
    exact fallbackL_ne_nil c b a

/-- C1: for every upstream response text and all non-empty cardName,
bankName and audience, the proxy's split/pad algorithm returns exactly
4 strings, each non-empty, regardless of how many numbered segments the
upstream text holds. -/
theorem variations_exactly_four (g c b a : String)
    (hc : c ≠ "") (hb : b ≠ "") (ha : a ≠ "") :
    (variations g c b a).length = 4 ∧ ∀ s ∈ variations g c b a, s ≠ "" := by
  constructor
  · simpa [variations] using variationsL_length g.data c.data b.data a.data
  · intro s hs
    rcases List.mem_map.1 hs with ⟨t, ht, rfl⟩
    intro hcon
    exact variationsL_mem_ne_nil g.data c.data b.data a.data t ht
      (congrArg String.data hcon)

/-- Witness for C1 at a concrete upstream text with a single numbered
segment. -/
theorem variations_exactly_four_witness :
    (("Gold Card" : String) ≠ "" ∧ ("BigBank" : String) ≠ "" ∧ ("Friends" : String) ≠ "")
      ∧ ((variations "1. Only one." "Gold Card" "BigBank" "Friends").length = 4
        ∧ ∀ s ∈ variations "1. Only one." "Gold Card" "BigBank" "Friends", s ≠ "") :=
  ⟨by decide, variations_exactly_four "1. Only one." "Gold Card" "BigBank" "Friends"
    (by decide) (by decide) (by decide)⟩

/-- C2 as stated fails: with audience "Friends" the code lowercases the
audience inside the fallback, so the third and fourth entries are not
the claimed template with the audience field verbatim. -/
theorem variations_example_verbatim_audience_false :
    variations "1. Great card! 2. Try it today." "Gold Card" "BigBank" "Friends" ≠
      ["Great card!", "Try it today.",
       "Gold Card from BigBank - Great choice for Friends!",
       "Gold Card from BigBank - Great choice for Friends!"] := by
  decide

/-- C2 amended: the upstream text "1. Great card! 2. Try it today."
yields the two numbered segments followed by two copies of the fallback
template, in which the audience field appears lowercased. -/
theorem variations_example (c b a : String) :
    variations "1. Great card! 2. Try it today." c b a =
      ["Great card!", "Try it today.",
       c ++ " from " ++ b ++ " - Great choice for " ++ toLowerString a ++ "!",
       c ++ " from " ++ b ++ " - Great choice for " ++ toLowerString a ++ "!"] := by
  obtain ⟨lc⟩ := c
  obtain ⟨lb⟩ := b
  obtain ⟨la⟩ := a
  rfl

/-- C3: a missing credential, or a non-ok upstream response, makes the
proxy answer an error-shaped body with the 500 failure status, and
never a variations result, partial or otherwise. -/
theorem proxy_fails_closed (apiKey : Option String)
    (fetchGemini : String → UpstreamResponse)
    (cardName bankName platform audience language tone customPrompt : String)
    (h : apiKey = none ∨
      (fetchGemini (buildPrompt cardName bankName platform audience language tone
        customPrompt)).ok = false) :
    (∃ msg, handleGenerate apiKey fetchGemini cardName bankName platform audience
        language tone customPrompt = ProxyResponse.failure 500 msg)
      ∧ ∀ vs, handleGenerate apiKey fetchGemini cardName bankName platform audience
          language tone customPrompt ≠ ProxyResponse.success vs := by
  rcases h with h | h
  · subst h
    exact ⟨⟨"Gemini API key not configured", rfl⟩, fun vs hvs => by cases hvs⟩
  · cases apiKey with
    | none => exact ⟨⟨"Gemini API key not configured", rfl⟩, fun vs hvs => by cases hvs⟩
    | some key =>
      have heq : handleGenerate (some key) fetchGemini cardName bankName platform
          audience language tone customPrompt = ProxyResponse.failure 500
            ("Gemini API error: "
              ++ toString (fetchGemini (buildPrompt cardName bankName platform audience
                language tone customPrompt)).status) := by
        simp [handleGenerate, h]
      refine ⟨⟨_, heq⟩, ?_⟩
      intro vs hvs
      rw [heq] at hvs
      cases hvs

/-- Witness for C3: the credential is absent. -/
theorem proxy_fails_closed_witness :
    ((none : Option String) = none ∨
      ((fun _ => (⟨true, 200, "1. a"⟩ : UpstreamResponse))
        (buildPrompt "C" "B" "instagram" "friends" "english" "friendly" "")).ok = false)
      ∧ ((∃ msg, handleGenerate none (fun _ => ⟨true, 200, "1. a"⟩) "C" "B" "instagram"
          "friends" "english" "friendly" "" = ProxyResponse.failure 500 msg)
        ∧ ∀ vs, handleGenerate none (fun _ => ⟨true, 200, "1. a"⟩) "C" "B" "instagram"
            "friends" "english" "friendly" "" ≠ ProxyResponse.success vs) :=
  ⟨Or.inl rfl, proxy_fails_closed none (fun _ => ⟨true, 200, "1. a"⟩) "C" "B"
    "instagram" "friends" "english" "friendly" "" (Or.inl rfl)⟩

/-- C5: for every non-empty query and every catalog response body, the
search stores at most 5 results, and every stored result matches the
query case-insensitively in its card name or its bank name. -/
theorem search_results_bounded_and_match (query : String)
    (data : Option (List CatalogCard)) (hq : query ≠ "") :
    (searchCards query data).1.length ≤ 5
      ∧ ∀ r ∈ (searchCards query data).1,
        optIncludesLower r.card_name query = true
          ∨ optIncludesLower r.bank_name query = true := by
  unfold searchCards
  by_cases h : (trimChars query.data).isEmpty
  · simp [h]
  · simp only [h, Bool.false_eq_true, if_false]
    constructor
    · simp only [List.length_map]
      cases data with
      | none => simp [filteredCards]
      | some cards => simp [filteredCards]
    · intro r hr
      rcases List.mem_map.1 hr with ⟨card, hcard, rfl⟩
      have hcard' : card ∈ filteredCards query data := hcard
      cases data with
      | none => simp [filteredCards] at hcard'
      | some cards =>
        have hmem := List.mem_of_mem_take (by simpa [filteredCards] using hcard')
        have hmatch := (List.mem_filter.1 hmem).2
        rw [matchesQuery, Bool.or_eq_true] at hmatch
        exact hmatch

/-- Witness for C5 at a concrete query and one-card catalog. -/
theorem search_results_bounded_and_match_witness :
    ("gold" : String) ≠ ""
      ∧ ((searchCards "gold"
            (some [⟨"1", some "Gold Plus", some "Acme", none, none, none⟩])).1.length ≤ 5
        ∧ ∀ r ∈ (searchCards "gold"
            (some [⟨"1", some "Gold Plus", some "Acme", none, none, none⟩])).1,
          optIncludesLower r.card_name "gold" = true
            ∨ optIncludesLower r.bank_name "gold" = true) :=
  ⟨by decide, search_results_bounded_and_match "gold"
    (some [⟨"1", some "Gold Plus", some "Acme", none, none, none⟩]) (by decide)⟩

/-- C6: the empty query produces an empty result set and issues no
network call to the catalog endpoint. -/
theorem search_empty_query (data : Option (List CatalogCard)) :
    searchCards "" data = ([], false) := rfl

/-- C9: a query of only whitespace characters behaves exactly as the
empty query: the result set is cleared and no network call is issued. -/
theorem search_whitespace_query (query : String) (data : Option (List CatalogCard))
    (h : ∀ c ∈ query.data, c.isWhitespace) :
    searchCards query data = ([], false)
      ∧ searchCards query data = searchCards "" data := by
  have htrim : trimChars query.data = [] := by
    have hdrop : query.data.dropWhile Char.isWhitespace = [] :=
      List.dropWhile_eq_nil_iff.2 h
    simp [trimChars, hdrop]
  have h1 : searchCards query data = ([], false) := by
    simp [searchCards, htrim]
  exact ⟨h1, h1.trans (rfl : searchCards "" data = ([], false)).symm⟩

/-- Witness for C9 at a three-space query. -/
theorem search_whitespace_query_witness :
    (∀ c ∈ ("   " : String).data, c.isWhitespace)
      ∧ (searchCards "   " none = ([], false)
        ∧ searchCards "   " none = searchCards "" none) :=
  ⟨by decide, search_whitespace_query "   " none (by decide)⟩

/-- C4: with no selected card, or any of platform, audience, language
or tone unset, the generation operation leaves the backend untouched
and reports the missing-information notice, and this is its only
outcome. -/
theorem generate_blocked (s : GenState) (db : DB)
    (h : s.selectedCard = none ∨ s.platform = "" ∨ s.audience = "" ∨ s.language = ""
      ∨ s.tone = "") :
    generateContentStep s db = (db, GenOutcome.missingInfo) := by
  cases hc : s.selectedCard with
  | none => simp [generateContentStep, hc]
  | some card =>
    rcases h with h | h | h | h | h
    · rw [hc] at h; cases h
    all_goals simp [generateContentStep, hc, h]

/-- Witness for C4 at a state with every field filled except the tone. -/
theorem generate_blocked_witness :
    ((s0.selectedCard = none ∨ "instagram" = "" ∨ "friends" = "" ∨ "english" = ""
        ∨ ("" : String) = "")
      ∧ generateContentStep ⟨some card0, "instagram", "friends", "english", "", ""⟩ db0
          = (db0, GenOutcome.missingInfo)) :=
  ⟨Or.inr (Or.inr (Or.inr (Or.inr rfl))),
    generate_blocked ⟨some card0, "instagram", "friends", "english", "", ""⟩ db0
      (Or.inr (Or.inr (Or.inr (Or.inr rfl))))⟩

/-- C8: a run that passes validation (a generation or a regeneration
alike, over any prior backend contents) appends exactly one fresh input
row and one batch of four output rows with ordinals 1 to 4, each
referencing the fresh input row; every previously inserted row is still
present, unchanged, and the fresh input row is none of them. -/
theorem generate_appends_batch (s : GenState) (db : DB) (card : CreditCardI)
    (hc : s.selectedCard = some card)
    (hp : s.platform ≠ "") (ha : s.audience ≠ "") (hl : s.language ≠ "") (ht : s.tone ≠ "")
    (hwf : ∀ r ∈ db.user_inputs, r.id < db.nextId) :
    ∃ inputRow batch,
      (generateContentStep s db).1.user_inputs = db.user_inputs ++ [inputRow]
        ∧ (generateContentStep s db).1.ai_outputs = db.ai_outputs ++ batch
        ∧ (generateContentStep s db).2 = GenOutcome.generated batch
        ∧ batch.map AIOutputRow.variation_number = [1, 2, 3, 4]
        ∧ (∀ r ∈ batch, r.input_id = inputRow.id)
        ∧ (∀ r ∈ db.user_inputs, r.id ≠ inputRow.id) := by
  obtain ⟨sc, pf, au, lg, tn, cp⟩ := s
  cases hc
  have hcond : ¬(pf = "" ∨ au = "" ∨ lg = "" ∨ tn = "") := by
    simp_all
  simp only [generateContentStep]
  rw [if_neg hcond]
  refine ⟨_, _, rfl, ?_, rfl, ?_, ?_, ?_⟩
  · simp [insertUserInput, insertOutputs, insertAIOutput, mockContent]
  · rfl
  · simp [insertUserInput, insertOutputs, insertAIOutput, mockContent]
  · intro r hr
    exact Nat.ne_of_lt (hwf r hr)

/-- Witness for C8: a second run over the backend the first run of the
same state produced. -/
theorem generate_appends_batch_witness :
    (s0.selectedCard = some card0
      ∧ s0.platform ≠ "" ∧ s0.audience ≠ "" ∧ s0.language ≠ "" ∧ s0.tone ≠ ""
      ∧ ∀ r ∈ (generateContentStep s0 db0).1.user_inputs,
          r.id < (generateContentStep s0 db0).1.nextId)
      ∧ ∃ inputRow batch,
        (generateContentStep s0 (generateContentStep s0 db0).1).1.user_inputs
            = (generateContentStep s0 db0).1.user_inputs ++ [inputRow]
          ∧ (generateContentStep s0 (generateContentStep s0 db0).1).1.ai_outputs
            = (generateContentStep s0 db0).1.ai_outputs ++ batch
          ∧ (generateContentStep s0 (generateContentStep s0 db0).1).2
            = GenOutcome.generated batch
          ∧ batch.map AIOutputRow.variation_number = [1, 2, 3, 4]
          ∧ (∀ r ∈ batch, r.input_id = inputRow.id)
          ∧ (∀ r ∈ (generateContentStep s0 db0).1.user_inputs, r.id ≠ inputRow.id) :=
  ⟨⟨rfl, by decide, by decide, by decide, by decide, by decide⟩,
    generate_appends_batch s0 (generateContentStep s0 db0).1 card0 rfl
      (by decide) (by decide) (by decide) (by decide) (by decide)⟩

/-- The contents stored by the output batch are exactly the composed
content list, whatever the backend and ordinals. -/
theorem insertOutputs_contents (contents : List String) (db : DB) (inputId k : Nat) :
    ((insertOutputs db inputId contents k).2).map AIOutputRow.content_variation
      = contents := by
  induction contents generalizing db k with
  | nil => rfl
  | cons c cs ih => simp [insertOutputs, insertAIOutput, ih]

/-- C10: the composed variation strings of a run depend only on the
selected card's name and bank name, the audience and the tone: two
valid runs agreeing on those four values display identical texts,
whatever their platform, language, custom prompt or backend. -/
theorem content_depends_only_on_card_audience_tone
    (s1 s2 : GenState) (db1 db2 : DB) (c1 c2 : CreditCardI)
    (h1 : s1.selectedCard = some c1) (h2 : s2.selectedCard = some c2)
    (hname : c1.card_name = c2.card_name) (hbank : c1.bank_name = c2.bank_name)
    (haud : s1.audience = s2.audience) (htone : s1.tone = s2.tone)
    (hp1 : s1.platform ≠ "") (ha1 : s1.audience ≠ "") (hl1 : s1.language ≠ "")
    (ht1 : s1.tone ≠ "") (hp2 : s2.platform ≠ "") (hl2 : s2.language ≠ "") :
    generatedTexts (generateContentStep s1 db1)
      = generatedTexts (generateContentStep s2 db2) := by
  have ha2 : s2.audience ≠ "" := haud ▸ ha1
  have ht2 : s2.tone ≠ "" := htone ▸ ht1
  have hcond1 : ¬(s1.platform = "" ∨ s1.audience = "" ∨ s1.language = "" ∨ s1.tone = "") := by
    simp [hp1, ha1, hl1, ht1]
  have hcond2 : ¬(s2.platform = "" ∨ s2.audience = "" ∨ s2.language = "" ∨ s2.tone = "") := by
    simp [hp2, ha2, hl2, ht2]
  have e1 : generatedTexts (generateContentStep s1 db1) = mockContent c1 s1.audience s1.tone := by
    simp only [generateContentStep, h1, hcond1, if_false]
    exact insertOutputs_contents _ _ _ _
  have e2 : generatedTexts (generateContentStep s2 db2) = mockContent c2 s2.audience s2.tone := by
    simp only [generateContentStep, h2, hcond2, if_false]
    exact insertOutputs_contents _ _ _ _
  rw [e1, e2, mockContent, mockContent, hname, hbank, haud, htone]

/-- Witness for C10: two runs differing in platform, language, custom
prompt and backend but agreeing on card name, bank name, audience and
tone. -/
theorem content_depends_only_on_card_audience_tone_witness :
    (s0.selectedCard = some card0
      ∧ (⟨some card0, "facebook", "friends", "hindi", "friendly", "extra"⟩ :
          GenState).selectedCard = some card0
      ∧ card0.card_name = card0.card_name ∧ card0.bank_name = card0.bank_name
      ∧ s0.audience = "friends" ∧ s0.tone = "friendly"
      ∧ s0.platform ≠ "" ∧ s0.audience ≠ "" ∧ s0.language ≠ "" ∧ s0.tone ≠ ""
      ∧ ("facebook" : String) ≠ "" ∧ ("hindi" : String) ≠ "")
      ∧ generatedTexts (generateContentStep s0 db0)
        = generatedTexts (generateContentStep
            ⟨some card0, "facebook", "friends", "hindi", "friendly", "extra"⟩ ⟨[], [], 7⟩) :=
  ⟨⟨rfl, rfl, rfl, rfl, rfl, rfl, by decide, by decide, by decide, by decide,
      by decide, by decide⟩,
    content_depends_only_on_card_audience_tone s0
      ⟨some card0, "facebook", "friends", "hindi", "friendly", "extra"⟩ db0 ⟨[], [], 7⟩
      card0 card0 rfl rfl rfl rfl rfl rfl (by decide) (by decide) (by decide) (by decide)
      (by decide) (by decide)⟩

/-- C7 fails on the code: at a concrete valid state the generation step
stores the four locally composed mockContent strings; the client path
never calls the generate-content proxy, against the code's own comment
that the Gemini call belongs in an edge function. -/
theorem generation_composes_locally :
    (generateContentStep s0 db0).1.ai_outputs.map AIOutputRow.content_variation
      = mockContent card0 "friends" "friendly" := by decide

end Creativize
